import Mathlib

/-!
Verification of the encodium validation/serialization library
(src/encodium/__init__.py) against its natural-language specification.

The Python runtime values that can flow through the library are embedded as
the inductive `Value`; record classes are embedded as `EClass` (an ordered
field-name to Definition mapping, as computed by `EncodiumMeta`); the
per-kind `Definition` subclasses are embedded as the inductive `Defn`.
External collaborators named by the spec (the JSON text parser and the
base64 codec) are passed in as function parameters; the JSON serializer
`json.dumps` is modelled directly for the restricted value universe.
-/

set_option autoImplicit false

namespace Encodium

/-- The exceptions the embedded code can raise.  `validation msg` is
`ValidationError(msg)` (src line 158); the other constructors stand for the
built-in Python exceptions that the code can raise on its various paths. -/
inductive PyError where
  | validation (msg : String)
  | typeError
  | valueError
  | attributeError
  | keyError
  | recursionError
deriving DecidableEq

/-- Python runtime values reachable through the library: `None`, the
primitive kinds, parsed-JSON dicts, and record instances.  A record value
carries its class's method resolution order (class names from the class
itself up to, excluding, `Encodium`) and its `__dict__`. -/
inductive Value where
  | none
  | int (n : Int)
  | bool (b : Bool)
  | str (s : String)
  | bytes (bs : List Nat)
  | list (vs : List Value)
  | dict (kvs : List (String × Value))
  | record (mro : List String) (flds : List (String × Value))

/-- A record instance's `__dict__`: committed field values in insertion
order. -/
abbrev Dict := List (String × Value)

/-- Python classes relevant to `check_type`: the builtin kinds and record
classes.  A record class is identified by its mro name list. -/
inductive PyType where
  | intT
  | boolT
  | strT
  | bytesT
  | listT
  | dictT
  | noneT
  | recT (mro : List String)
deriving DecidableEq

/-- `value.__class__` (src line 219). -/
def valueClass : Value → PyType
  | .none => .noneT
  | .int _ => .intT
  | .bool _ => .boolT
  | .str _ => .strT
  | .bytes _ => .bytesT
  | .list _ => .listT
  | .dict _ => .dictT
  | .record mro _ => .recT mro

/-- `value.__class__.__name__`, used in error messages (src lines 239, 322). -/
def pyClassName : Value → String
  | .none => "NoneType"
  | .int _ => "int"
  | .bool _ => "bool"
  | .str _ => "str"
  | .bytes _ => "bytes"
  | .list _ => "list"
  | .dict _ => "dict"
  | .record mro _ => mro.headD ""

/-- `str(cls)` as used in the `check_type` mismatch message (src lines
221-222).  Python renders classes as <class 'name'>; the quote marks are
elided here, which preserves the property that matters: the message names
the class. -/
def typeStr : PyType → String
  | .intT => "<class int>"
  | .boolT => "<class bool>"
  | .strT => "<class str>"
  | .bytesT => "<class bytes>"
  | .listT => "<class list>"
  | .dictT => "<class dict>"
  | .noneT => "<class NoneType>"
  | .recT mro => "<class " ++ mro.headD "" ++ ">"

/-- Python `issubclass(actual, expected)` restricted to the classes in
`PyType` (src line 220).  `bool` is a builtin subclass of `int`; for record
classes, single inheritance means `A` is a subclass of `B` exactly when
`B`'s mro is a suffix of `A`'s. -/
def issubclass : PyType → PyType → Bool
  | .recT m1, .recT m2 => m2.isSuffixOf m1
  | .boolT, .intT => true
  | .boolT, .boolT => true
  | .intT, .intT => true
  | .strT, .strT => true
  | .bytesT, .bytesT => true
  | .listT, .listT => true
  | .dictT, .dictT => true
  | .noneT, .noneT => true
  | _, _ => false

/-- A field's `default` attribute: either a plain value (class default is
`None`, modelled as `value Value.none`) or a zero-argument callable.  The
behaviour of a callable default is supplied to construction as a
state-threading function, mirroring that `__init__` (src line 249) calls it
fresh each time. -/
inductive Default where
  | value (v : Value)
  | callable

/-- The `Definition` instances attachable to fields, one constructor per
`Definition` subclass in the source.  `base` is `Encodium.Definition`
itself, as used for record-typed fields, carrying the `_encodium_type` that
attribute lookup finds on it at check time; the others carry the
constraint parameters of Integer/String/Boolean/List/Bytes `Definition`
(src lines 354-420). -/
inductive Defn where
  | base (optional : Bool) (dflt : Default) (encodium_type : PyType)
  | intD (optional : Bool) (dflt : Default) (non_negative : Bool)
  | strD (optional : Bool) (dflt : Default) (max_length : Option Nat)
  | boolD (optional : Bool) (dflt : Default)
  | listD (optional : Bool) (dflt : Default) (inner : Defn)
  | bytesD (optional : Bool) (dflt : Default)

/-- The `optional` attribute (src line 205). -/
def Defn.optionalB : Defn → Bool
  | .base o _ _ => o
  | .intD o _ _ => o
  | .strD o _ _ => o
  | .boolD o _ => o
  | .listD o _ _ => o
  | .bytesD o _ => o

/-- The `default` attribute (src line 206). -/
def Defn.defaultOf : Defn → Default
  | .base _ d _ => d
  | .intD _ d _ => d
  | .strD _ d _ => d
  | .boolD _ d => d
  | .listD _ d _ => d
  | .bytesD _ d => d

/-- The `_encodium_type` each Definition subclass carries (src lines 356,
366, 379, 387, 406; for `base` the type stored on `Encodium.Definition`). -/
def Defn.encodiumType : Defn → PyType
  | .base _ _ t => t
  | .intD _ _ _ => .intT
  | .strD _ _ _ => .strT
  | .boolD _ _ => .boolT
  | .listD _ _ _ => .listT
  | .bytesD _ _ => .bytesT

/-- `Encodium.Definition.check_type` (src lines 213-223): `None` is allowed
only when `optional`; otherwise the value's class must be a subclass of
`_encodium_type`, with a mismatch message naming both classes. -/
def baseCheckType (d : Defn) (v : Value) : Except PyError Unit :=
  match v with
  | .none =>
    if d.optionalB then .ok () else .error (.validation "cannot be None")
  | v =>
    let expected := d.encodiumType
    let actual := valueClass v
    if issubclass actual expected then .ok ()
    else .error (.validation ("is supposed to be type " ++ typeStr expected ++
      ", but was set to something of type " ++ typeStr actual ++ "."))

/-- Dispatch of `check_type`: `List.Definition.check_type` (src lines
393-397) runs the base check and then the inner Definition's `check_type`
on every element; every other kind uses the base check alone.  The element
loop is a fold that keeps the first error, matching Python's
raise-at-first-failure (later iterations cannot change the outcome). -/
def Defn.check_type : Defn → Value → Except PyError Unit
  | .listD o dflt inner, v =>
    match baseCheckType (.listD o dflt inner) v with
    | .error e => .error e
    | .ok _ =>
      match v with
      | .list vs =>
        vs.foldl
          (fun acc iv =>
            match acc with
            | .error e => .error e
            | .ok _ => Defn.check_type inner iv)
          (.ok ())
      | _ => .ok ()
  | d, v => baseCheckType d v

/-- Python `len(value)`, defined for the sized kinds; `Option.none` stands
for the `TypeError` that `len` raises elsewhere. -/
def pyLen : Value → Option Nat
  | .str s => Option.some s.length
  | .bytes bs => Option.some bs.length
  | .list vs => Option.some vs.length
  | .dict kvs => Option.some kvs.length
  | _ => Option.none

/-- `check_value` of each Definition subclass.
Integer (src lines 359-361): `if self.non_negative and value < 0` — when the
value is not a number (it can be a whole list, see the List case) the
comparison raises `TypeError`; Python booleans compare as 0/1 and are never
negative.
String (src lines 369-374): rejects `len(value) >= max_length`.
Boolean/Bytes (src lines 381-382, 408-409) and the base class (src lines
225-226) accept everything.
List (src lines 399-401): loops over the elements but — exactly as the
source does — passes the *whole list* `value`, not the loop variable
`inner_value`, to the inner Definition's `check_value`; the fold keeps the
first error, matching Python's raise-at-first-failure. -/
def Defn.check_value : Defn → Value → Except PyError Unit
  | .base _ _ _, _ => .ok ()
  | .intD _ _ nn, v =>
    if nn then
      match v with
      | .int n =>
        if n < 0 then .error (.validation "must not be negative") else .ok ()
      | .bool _ => .ok ()
      | _ => .error .typeError
    else .ok ()
  | .strD _ _ ml, v =>
    match ml with
    | Option.none => .ok ()
    | Option.some m =>
      match pyLen v with
      | Option.some n =>
        if n ≥ m then
          .error (.validation ("was set to a string of length " ++ toString n ++
            " but cannot be longer than " ++ toString m))
        else .ok ()
      | Option.none => .error .typeError
  | .boolD _ _, _ => .ok ()
  | .bytesD _ _, _ => .ok ()
  | .listD _ _ inner, v =>
    match v with
    | .list vs =>
      vs.foldl
        (fun acc _ =>
          match acc with
          | .error e => .error e
          | .ok _ => Defn.check_value inner (.list vs))
        (.ok ())
    | _ => .error .typeError

/-- The per-field validation performed by `change` (src lines 277-279):
`check_type`, then `check_value` only when the value is not `None`. -/
def fieldCheck (d : Defn) (v : Value) : Except PyError Unit :=
  match Defn.check_type d v with
  | .error e => .error e
  | .ok _ =>
    match v with
    | .none => .ok ()
    | v2 => Defn.check_value d v2

/-- A record class as the metaclass leaves it: its mro name list and its
`_encodium_fields` mapping (src lines 192-197). -/
structure EClass where
  mro : List String
  fields : List (String × Defn)

/-- `self.__dict__[k] = v` on a Python dict: updates the entry in place if
the key exists, otherwise appends (insertion order preserved). -/
def dictSet (d : Dict) (k : String) (v : Value) : Dict :=
  if (d.lookup k).isSome then
    d.map (fun p => if p.1 == k then (p.1, v) else p)
  else d ++ [(k, v)]

/-- The first loop of `change` (src lines 266-284): walk the keyword batch
in order; unknown names only produce a stderr warning and are skipped;
known names run `check_type`/`check_value`, and a `ValidationError` is
re-raised with the field name prefixed to its message (other exception
kinds propagate untouched).  Returns `changed_attributes` in batch order. -/
def validateBatch (fields : List (String × Defn)) :
    List (String × Value) → Except PyError (List (String × Value))
  | [] => .ok []
  | (name, value) :: rest =>
    match fields.lookup name with
    | Option.none => validateBatch fields rest
    | Option.some defn =>
      match fieldCheck defn value with
      | .error (.validation m) => .error (.validation (name ++ " " ++ m))
      | .error e => .error e
      | .ok _ =>
        match validateBatch fields rest with
        | .error e => .error e
        | .ok cs => .ok ((name, value) :: cs)

/-- The snapshot taken by `change` (src lines 286-291): for every field
about to change, its previous `__dict__` value, or `None` when the field
had no previous value. -/
def mkBackup (d : Dict) (changed : List (String × Value)) :
    List (String × Value) :=
  changed.map (fun p => (p.1, (d.lookup p.1).getD Value.none))

/-- The commit loop of `change` (src line 292). -/
def commitAll (d : Dict) (changed : List (String × Value)) : Dict :=
  changed.foldl (fun dd p => dictSet dd p.1 p.2) d

/-- The restore loop in `change`'s exception handler, exactly as written in
the source (src lines 298-299): `for name, value in backup:` iterates the
*keys* of the backup dict, so each key string is itself unpacked.  A
two-character key "ab" unpacks into name="a", value="b" and sets attribute
"a" to the string "b"; any other key length raises `ValueError`, which
aborts the restore and replaces the in-flight `ValidationError`. -/
def buggyRestore : Dict → List (String × Value) → Dict × Option PyError
  | d, [] => (d, Option.none)
  | d, (k, _) :: rest =>
    match k.toList with
    | [a, b] => buggyRestore (dictSet d (String.mk [a]) (.str (String.mk [b]))) rest
    | _ => (d, Option.some PyError.valueError)

/-- `Encodium.change` (src lines 265-300), the transactional mutation
algorithm.  `hook` is the user-overridable whole-record `check` method
(src lines 302-303; only `ValidationError` is caught from it, hence the
`Except String` shape); it receives the changed field names.  The result
pairs the instance's `__dict__` after the call with the exception the call
raises, if any. -/
def change (cls : EClass) (hook : List String → Except String Unit)
    (d : Dict) (kwargs : List (String × Value)) : Dict × Option PyError :=
  match validateBatch cls.fields kwargs with
  | .error e => (d, Option.some e)
  | .ok changed =>
    let backup := mkBackup d changed
    let d2 := commitAll d changed
    match hook (changed.map Prod.fst) with
    | .ok _ => (d2, Option.none)
    | .error m =>
      match buggyRestore d2 backup with
      | (d3, Option.some e) => (d3, Option.some e)
      | (d3, Option.none) => (d3, Option.some (.validation m))

/-- The default whole-record `check` hook (src lines 302-303): a no-op. -/
def noopCheck : List String → Except String Unit := fun _ => Except.ok ()

/-- The default-filling loop of `Encodium.__init__` (src lines 246-251):
every declared field missing from the keyword batch gets its Definition's
default, and a callable default is invoked afresh.  The callable's
behaviour is the state-threading function `f`. -/
def fillDefaults (f : Nat → Value × Nat) :
    List (String × Defn) → List (String × Value) → Nat →
    List (String × Value) × Nat
  | [], kw, s => (kw, s)
  | (name, defn) :: rest, kw, s =>
    if (kw.lookup name).isSome then fillDefaults f rest kw s
    else
      match defn.defaultOf with
      | .value v => fillDefaults f rest (kw ++ [(name, v)]) s
      | .callable =>
        let p := f s
        fillDefaults f rest (kw ++ [(name, p.1)]) p.2

/-- `Encodium.__init__` (src lines 245-253): fill defaults, then delegate
to `change` starting from an empty `__dict__`. -/
def init (cls : EClass) (hook : List String → Except String Unit)
    (f : Nat → Value × Nat) (kwargs : List (String × Value)) (s : Nat) :
    (Dict × Option PyError) × Nat :=
  let p := fillDefaults f cls.fields kwargs s
  (change cls hook [] p.1, p.2)

mutual
/-- Python `!=` on committed field values as `Encodium.__eq__` (src line
258) triggers it.  For two record instances it dispatches to the library's
own `__ne__`/`__eq__`: instances of *different* classes compare equal
(`__eq__` falls through to `return True`), so `!=` is false; same-class
instances compare field by field.  A record compared against a non-record
also reaches `Encodium.__eq__`, whose class test fails, again yielding
equal.  Primitive values compare structurally. -/
def valueNeq : Value → Value → Bool
  | .record m1 f1, other =>
    match other with
    | .record m2 f2 => if m1 == m2 then fieldsNeq f1 f2 else false
    | _ => false
  | .list l1, other =>
    match other with
    | .list l2 => listNeq l1 l2
    | .record _ _ => false
    | _ => true
  | .dict kv1, other =>
    match other with
    | .dict kv2 => decide (kv1.length ≠ kv2.length) || fieldsNeq kv1 kv2
    | .record _ _ => false
    | _ => true
  | .none, other =>
    match other with
    | .none => false
    | .record _ _ => false
    | _ => true
  | .int n1, other =>
    match other with
    | .int n2 => decide (n1 ≠ n2)
    | .bool b2 => decide (n1 ≠ (if b2 then 1 else 0))
    | .record _ _ => false
    | _ => true
  | .bool b1, other =>
    match other with
    | .bool b2 => b1 != b2
    | .int n2 => decide ((if b1 then (1 : Int) else 0) ≠ n2)
    | .record _ _ => false
    | _ => true
  | .str s1, other =>
    match other with
    | .str s2 => s1 != s2
    | .record _ _ => false
    | _ => true
  | .bytes b1, other =>
    match other with
    | .bytes b2 => b1 != b2
    | .record _ _ => false
    | _ => true

/-- The field loop of a nested `__eq__` between same-class instances:
compares the first instance's entries against the second's by name (for a
validly constructed instance the `__dict__` keys are exactly the declared
fields). -/
def fieldsNeq : List (String × Value) → List (String × Value) → Bool
  | [], _ => false
  | (n, v) :: rest, f2 =>
    valueNeq v ((f2.lookup n).getD Value.none) || fieldsNeq rest f2

/-- Python `!=` on two lists: element-wise, unequal lengths are unequal. -/
def listNeq : List Value → List Value → Bool
  | [], [] => false
  | [], _ :: _ => true
  | _ :: _, [] => true
  | v1 :: r1, v2 :: r2 => valueNeq v1 v2 || listNeq r1 r2
end

/-- The value an `Encodium.__eq__` call can be compared against: another
record instance, or any other Python value. -/
inductive PyObj where
  | record (cls : EClass) (d : Dict)
  | plain (v : Value)

/-- The field loop of `Encodium.__eq__` (src lines 257-259). -/
def eqLoop : List (String × Defn) → Dict → Dict → Bool
  | [], _, _ => true
  | (n, _) :: rest, d, d2 =>
    if valueNeq ((d.lookup n).getD Value.none) ((d2.lookup n).getD Value.none)
    then false
    else eqLoop rest d d2

/-- `Encodium.__eq__` (src lines 255-260): when `self.__class__ ==
other.__class__` the declared fields are compared, any mismatch returning
False; in every other case — different record class, or a non-record value
whose class can never equal a record class — the loop is skipped and the
method falls through to `return True`.  Class identity is modelled as mro
equality (class names are unique). -/
def eqMethod (cls : EClass) (d : Dict) (other : PyObj) : Bool :=
  match other with
  | .record cls2 d2 =>
    if cls.mro == cls2.mro then eqLoop cls.fields d d2 else true
  | .plain _ => true

/-- `Encodium.__ne__` (src lines 262-263). -/
def neMethod (cls : EClass) (d : Dict) (other : PyObj) : Bool :=
  !(eqMethod cls d other)

/-- Whether a record class's body declares its own nested `Definition`
class, and if so whether that class sets `_encodium_type` explicitly. -/
inductive OwnDefn where
  | inherited
  | own (explicitType : Option PyType)

/-- One `class R(Encodium)`-style declaration as `EncodiumMeta.__init__`
sees it: the class name, the parent's mro (empty when the parent is
`Encodium` itself), the `Definition`-valued attributes of the class body,
and its nested-`Definition` situation. -/
structure ClassDecl where
  name : String
  parentMro : List String
  body : List (String × Defn)
  ownDefn : OwnDefn

/-- `EncodiumMeta.__init__` (src lines 181-197) over a module's class
declarations in order.  The accumulator is the `_encodium_type` attribute
currently stored on the shared base class `Encodium.Definition`
(initially absent).  For a class whose body declares no nested
`Definition`, `cls.Definition` *is* `Encodium.Definition`, so the
`if not hasattr(cls.Definition, '_encodium_type')` guard (src line 189)
sets the attribute on that shared class for the first such declaration and
leaves it untouched for every later one.  `cls._encodium_fields` is always
recomputed from the class's own body dict (src lines 193-197).  Returns
the final shared `_encodium_type` and each class's `EClass`. -/
def processDecls : List ClassDecl → Option PyType →
    Option PyType × List (String × EClass)
  | [], bt => (bt, [])
  | c :: rest, bt =>
    let mro := c.name :: c.parentMro
    let bt2 :=
      match c.ownDefn with
      | .inherited =>
        match bt with
        | Option.none => Option.some (PyType.recT mro)
        | Option.some t => Option.some t
      | .own _ => bt
    let out := processDecls rest bt2
    (out.1, (c.name, ⟨mro, c.body⟩) :: out.2)

/-- The `_encodium_type` that `R.Definition().check_type` actually reads at
validation time, after all classes in `decls` have been declared.  A class
with its own nested `Definition` keeps its own attribute (the explicit one,
else the class itself, set once by the metaclass); a class that inherits
`Encodium.Definition` reads whatever ended up on that shared class. -/
def effDefnType (decls : List ClassDecl) (R : String) : Option PyType :=
  match decls.find? (fun c => c.name == R) with
  | Option.none => Option.none
  | Option.some c =>
    match c.ownDefn with
    | .own (Option.some t) => Option.some t
    | .own Option.none => Option.some (PyType.recT (c.name :: c.parentMro))
    | .inherited => (processDecls decls Option.none).1

/-- Minimal JSON string escaping for `json.dumps` on text: quote and
backslash are escaped; other characters pass through (control characters,
irrelevant to the values exercised here, are elided — the spec treats the
JSON text codec as an external collaborator). -/
def escChar (c : Char) : String :=
  if c = '"' then "\\\"" else if c = '\\' then "\\\\" else String.mk [c]

/-- A JSON-quoted string literal. -/
def jsonQuote (s : String) : String :=
  "\"" ++ String.join (s.toList.map escChar) ++ "\""

mutual
/-- `json.dumps` on the primitive Python values (the source's fallback
encoder, src line 233).  `bytes` and record instances are not JSON
serializable: `TypeError`. -/
def dumps : Value → Except PyError String
  | .none => .ok "null"
  | .int n => .ok (toString n)
  | .bool b => .ok (if b then "true" else "false")
  | .str s => .ok (jsonQuote s)
  | .bytes _ => .error .typeError
  | .record _ _ => .error .typeError
  | .list vs =>
    match dumpsList vs with
    | .error e => .error e
    | .ok ps => .ok ("[" ++ String.intercalate ", " ps ++ "]")
  | .dict kvs =>
    match dumpsDict kvs with
    | .error e => .error e
    | .ok ps => .ok ("\x7b" ++ String.intercalate ", " ps ++ "\x7d")

/-- `json.dumps` over a list's elements. -/
def dumpsList : List Value → Except PyError (List String)
  | [] => .ok []
  | v :: vs =>
    match dumps v with
    | .error e => .error e
    | .ok s =>
      match dumpsList vs with
      | .error e => .error e
      | .ok ss => .ok (s :: ss)

/-- `json.dumps` over a dict's entries. -/
def dumpsDict : List (String × Value) → Except PyError (List String)
  | [] => .ok []
  | (k, v) :: kvs =>
    match dumps v with
    | .error e => .error e
    | .ok s =>
      match dumpsDict kvs with
      | .error e => .error e
      | .ok ss => .ok ((jsonQuote k ++ ": " ++ s) :: ss)
end

/-- `Encodium.to_json` (src lines 305-317): builds a JSON object text with
one `"name":piece` entry per declared field in declaration order.  Each
piece comes from the field Definition's `to_json`:
`Bytes.Definition.to_json` (src lines 411-412) emits the JSON-quoted
base64 text of the bytes (`b64encode` raises `TypeError` on non-bytes);
every other Definition uses `Encodium.Definition.to_json` (src lines
228-233), under which a value with a `to_json` attribute — a record
instance — encodes itself via its class, and anything else goes through
`json.dumps`.  `reg` maps a class name to its `EClass` (the runtime's
class registry); `enc64` is the external base64 encoder; `fuel` bounds the
nesting depth (Python's limit is the interpreter stack), decremented once
per nested record object. -/
def to_json (reg : List (String × EClass)) (enc64 : List Nat → String) :
    Nat → EClass → Dict → Except PyError String
  | 0, _, _ => .error .recursionError
  | fuel + 1, cls, d =>
    let piece : Defn → Value → Except PyError String := fun defn v =>
      match defn, v with
      | .bytesD _ _, .bytes bs => .ok (jsonQuote (enc64 bs))
      | .bytesD _ _, _ => .error .typeError
      | _, .record mro flds =>
        (match reg.lookup (mro.headD "") with
         | Option.some cls2 => to_json reg enc64 fuel cls2 flds
         | Option.none => .error .keyError)
      | _, v2 => dumps v2
    let pieces : Except PyError (List String) := cls.fields.foldl
      (fun acc p =>
        match acc with
        | .error e => .error e
        | .ok ps =>
          match d.lookup p.1 with
          | Option.none => .error .keyError
          | Option.some v =>
            match piece p.2 v with
            | .error e => .error e
            | .ok s => .ok (ps ++ [jsonQuote p.1 ++ ":" ++ s]))
      (.ok [])
    match pieces with
    | .error e => .error e
    | .ok ps => .ok ("\x7b" ++ String.intercalate "," ps ++ "\x7d")

/-- Per-field decoding, `Definition.from_obj` as a classmethod (src lines
235-242 and 414-420).  For a record-typed field, `cls._encodium_type` has a
`from_obj` attribute, and the code then evaluates `obj.__type__` — an
attribute no parsed value possesses (the neighbouring `Encodium.from_obj`,
src line 321, correctly writes `obj.__class__`), so an `AttributeError` is
raised before any decoding happens.  For the primitive Definitions the
`_encodium_type` (int/str/bool/list) has no `from_obj` and the parsed value
is returned untouched — `List.Definition` does not override `from_obj`, so
list elements are never decoded.  `Bytes.Definition.from_obj` base64-decodes
via the external decoder `dec64`, turning a decode failure into
`ValidationError("invalid base 64")`. -/
def Defn.from_obj (dec64 : String → Option (List Nat)) :
    Defn → Value → Except PyError Value
  | .base _ _ t, v =>
    (match t with
     | .recT _ => .error .attributeError
     | _ => .ok v)
  | .bytesD _ _, v =>
    (match v with
     | .str s =>
       (match dec64 s with
        | Option.some bs => .ok (.bytes bs)
        | Option.none => .error (.validation "invalid base 64"))
     | _ => .error .typeError)
  | _, v => .ok v

/-- The kwargs-collection loop of `Encodium.from_obj` (src lines 323-326):
for each declared field, in declaration order, present as a key of the
parsed object, decode its value through the field Definition's
`from_obj`. -/
def collectKwargs (dec64 : String → Option (List Nat)) :
    List (String × Defn) → List (String × Value) →
    Except PyError (List (String × Value))
  | [], _ => .ok []
  | (name, defn) :: rest, obj =>
    match obj.lookup name with
    | Option.none => collectKwargs dec64 rest obj
    | Option.some ov =>
      match Defn.from_obj dec64 defn ov with
      | .error e => .error e
      | .ok v =>
        match collectKwargs dec64 rest obj with
        | .error e => .error e
        | .ok kw => .ok ((name, v) :: kw)

/-- `Encodium.from_obj` (src lines 319-327): the parsed value must be a
dict — otherwise `ValidationError` naming the actual kind — then the
decoded kwargs are passed to the constructor, which re-validates;
a constructor failure propagates and the partial instance is discarded. -/
def from_obj (cls : EClass) (hook : List String → Except String Unit)
    (f : Nat → Value × Nat) (dec64 : String → Option (List Nat))
    (v : Value) (s : Nat) : Except PyError Dict × Nat :=
  match v with
  | .dict kvs =>
    (match collectKwargs dec64 cls.fields kvs with
     | .error e => (.error e, s)
     | .ok kw =>
       match init cls hook f kw s with
       | ((d, Option.none), s2) => (.ok d, s2)
       | ((_, Option.some e), s2) => (.error e, s2))
  | v2 => (.error (.validation ("Cannot create Encodium object from " ++
      pyClassName v2)), s)

/-- `Encodium.from_json` (src lines 329-337).  `parse` is the external
`json.loads`: a `ValueError` from it is mapped to `obj = None`, and JSON
`null` also parses to Python `None`; either way a `None` result raises
`ValidationError("Invalid JSON")`, otherwise the parsed value goes to
`from_obj`. -/
def from_json (cls : EClass) (hook : List String → Except String Unit)
    (f : Nat → Value × Nat) (dec64 : String → Option (List Nat))
    (parse : String → Except Unit Value) (text : String) (s : Nat) :
    Except PyError Dict × Nat :=
  let obj : Option Value :=
    match parse text with
    | .error _ => Option.none
    | .ok .none => Option.none
    | .ok v => Option.some v
  match obj with
  | Option.none => (.error (.validation "Invalid JSON"), s)
  | Option.some v => from_obj cls hook f dec64 v s

/-! Concrete instances used by the theorems below, mirroring the record
types of the repository's documentation and test suite. -/

/-- Shorthand for the class-level default `default = None` (src line 206). -/
def dnone : Default := Default.value Value.none

/-- A trivial callable-default behaviour for constructions that never
invoke one. -/
def f0 : Nat → Value × Nat := fun n => (Value.none, n)

/-- A trivial external base64 encoder (no bytes field is exercised with it). -/
def enc0 : List Nat → String := fun _ => ""

/-- A trivial external base64 decoder (no bytes field is exercised with it). -/
def dec0 : String → Option (List Nat) := fun _ => Option.none

/-- A one-field record type with an integer `age` field and no constraint,
like `Person.age` of the library docstring. -/
def ageCls : EClass := ⟨["Person"], [("age", Defn.intD false dnone false)]⟩

/-- A user-overridden whole-record `check` hook that always raises
`ValidationError`. -/
def failHook : List String → Except String Unit := fun _ => Except.error "is bad"

/-- `class Person(Encodium)` with a non-negative `age` and a `name` capped
at length 5, for the atomicity theorem. -/
def personCls : EClass :=
  ⟨["Person"], [("age", Defn.intD false dnone true),
                ("name", Defn.strD false dnone (Option.some 5))]⟩

/-- `class City(Encodium): people = List.Definition(Integer.Definition(non_negative=True))`. -/
def negListCls : EClass :=
  ⟨["City"], [("people", Defn.listD false dnone (Defn.intD false dnone true))]⟩

/-- A record type `A` with one integer field. -/
def clsA : EClass := ⟨["A"], [("x", Defn.intD false dnone false)]⟩

/-- An unrelated record type `B` with one string field. -/
def clsB : EClass := ⟨["B"], [("y", Defn.strD false dnone Option.none)]⟩

/-- `class Nonce(Encodium): integer = Integer.Definition(default=next_counter)`
from the repository's callable-default test. -/
def counterCls : EClass :=
  ⟨["Nonce"], [("integer", Defn.intD false Default.callable false)]⟩

/-- The sequential-counter callable default of that test: each invocation
returns the current counter and increments it. -/
def counterF : Nat → Value × Nat := fun n => (Value.int (Int.ofNat n), n + 1)

/-- A one-field record type whose integer field carries `non_negative=True`. -/
def boolIntCls : EClass := ⟨["Holder"], [("n", Defn.intD false dnone true)]⟩

/-- The module-level declarations `class A(Encodium)` then `class
B(Encodium)`, neither with its own nested `Definition` class, as the
metaclass processes them. -/
def declsAB : List ClassDecl :=
  [⟨"A", [], [("x", Defn.intD false dnone false)], OwnDefn.inherited⟩,
   ⟨"B", [], [("y", Defn.intD false dnone false)], OwnDefn.inherited⟩]

/-- `class Inner(Encodium): age = Integer.Definition()`. -/
def innerCls : EClass := ⟨["Inner"], [("age", Defn.intD false dnone false)]⟩

/-- `class Outer(Encodium): inner = Inner.Definition()`.  Inner is the
first declared class without its own nested `Definition`, so the shared
`Encodium.Definition._encodium_type` is `Inner` and the field's effective
expected type is (correctly, here) `Inner`. -/
def outerCls : EClass :=
  ⟨["Outer"], [("inner", Defn.base false dnone (PyType.recT ["Inner"]))]⟩

/-- The runtime class registry for the Inner/Outer module. -/
def regIO : List (String × EClass) := [("Inner", innerCls), ("Outer", outerCls)]

/-- A valid `Outer` instance holding a nested `Inner` record. -/
def xOuter : Dict := [("inner", Value.record ["Inner"] [("age", Value.int 25)])]

/-- The JSON text `to_json` produces for `xOuter`. -/
def jsonOuter : String := "\x7b\"inner\":\x7b\"age\":25\x7d\x7d"

/-- A `json.loads` collaborator that parses exactly `jsonOuter` to its
generic tree and reports a `ValueError` on anything else. -/
def parseIO : String → Except Unit Value := fun t =>
  if t == jsonOuter then
    Except.ok (Value.dict [("inner", Value.dict [("age", Value.int 25)])])
  else Except.error ()

/-- A `json.loads` collaborator under which "not json at all" is malformed
and every other input parses to the bare JSON string "a bare string". -/
def parseW : String → Except Unit Value := fun t =>
  if t == "not json at all" then Except.error ()
  else Except.ok (Value.str "a bare string")

/-- The own-body field table of `class Dad(Person)` from the repository's
inheritance test. -/
def dadBody : List (String × Defn) :=
  [("puns", Defn.listD false dnone (Defn.strD false dnone Option.none))]

/-- The own-body field table of `class Person(Encodium)` as the parent. -/
def personBody : List (String × Defn) :=
  [("age", Defn.intD false dnone true)]

/-- C1: the claim says a whole-record check failure after commit restores
every snapshotted field and re-raises the ValidationError, leaving the
instance in its pre-call state.  The code violates this: on an instance
with `age = 25`, `change(age=30)` under a failing check hook leaves the
committed new value 30 in place and raises `ValueError` (the restore loop
iterates the backup dict's keys and unpacks the string "age"), not the
ValidationError. -/
theorem c1_change_rollback_valueerror :
    change ageCls failHook [("age", Value.int 25)] [("age", Value.int 30)] =
      ([("age", Value.int 30)], Option.some PyError.valueError) := rfl

/-- C5: the claim says a List field's value check runs the inner
Definition's value check on every element, so `[-1]` under a non-negative
inner constraint is rejected with a ValidationError.  The code instead
passes the whole list to the inner `check_value` (the loop variable
`inner_value` is computed but unused), so `Integer.Definition.check_value`
evaluates `[-1] < 0` and raises `TypeError`, which is not caught: the
batch fails with `TypeError`, not `ValidationError`, and element
constraints are never actually checked. -/
theorem c5_list_check_value_typeerror :
    change negListCls noopCheck [] [("people", Value.list [Value.int (-1)])] =
      ([], Option.some PyError.typeError) := rfl

/-- C3: the claim says a field declared with record type R's Definition
accepts exactly instances of R (or declared subtypes).  The code violates
this: with `class A(Encodium)` declared before `class B(Encodium)` (neither
having its own nested `Definition` class), the metaclass stores
`_encodium_type = A` on the shared inherited `Encodium.Definition`, so a
field declared `B.Definition()` type-checks against `A` and rejects a `B`
instance with a message naming `A` as the expected kind. -/
theorem c3_record_defn_type_poisoned :
    effDefnType declsAB "B" = Option.some (PyType.recT ["A"]) ∧
    Defn.check_type (Defn.base false dnone (PyType.recT ["A"]))
        (Value.record ["B"] [("y", Value.int 0)]) =
      Except.error (PyError.validation
        ("is supposed to be type <class A>, but was set to something of " ++
         "type <class B>.")) :=
  ⟨rfl, rfl⟩

/-- C2: the claim says `from_json(to_json(x)) == x` for every valid
instance, including nested records.  The code violates this: for a valid
`Outer` instance `x` holding a nested `Inner` record, construction and
`to_json` succeed, but `from_json` of the produced text (under a JSON
parser that parses that exact text to its generic tree) raises
`AttributeError`, because `Encodium.Definition.from_obj` evaluates
`obj.__type__`, an attribute no parsed value has. -/
theorem c2_roundtrip_nested_record_crash :
    init outerCls noopCheck f0
        [("inner", Value.record ["Inner"] [("age", Value.int 25)])] 0 =
      ((xOuter, Option.none), 0) ∧
    to_json regIO enc0 5 outerCls xOuter = Except.ok jsonOuter ∧
    from_json outerCls noopCheck f0 dec0 parseIO jsonOuter 0 =
      (Except.error PyError.attributeError, 0) :=
  ⟨rfl, rfl, rfl⟩

/-- C4 counterexample: the claim says comparing against an instance of a
different declared type, or against a non-record value, returns not-equal.
The code's `__eq__` skips the field loop and falls through to `return
True` in both situations: an `A` instance compares *equal* to a `B`
instance and to the plain integer 5. -/
theorem c4_eq_cross_type_counterexample :
    eqMethod clsA [("x", Value.int 1)] (PyObj.record clsB [("y", Value.str "q")]) = true ∧
    eqMethod clsA [("x", Value.int 1)] (PyObj.plain (Value.int 5)) = true :=
  ⟨rfl, rfl⟩

/-- The field loop of `__eq__` succeeds exactly when no declared field's
committed values compare unequal. -/
theorem eqLoop_true_iff (fs : List (String × Defn)) (d d2 : Dict) :
    eqLoop fs d d2 = true ↔
      ∀ p ∈ fs,
        valueNeq ((d.lookup p.1).getD Value.none)
          ((d2.lookup p.1).getD Value.none) = false := by
  induction fs with
  | nil => simp [eqLoop]
  | cons hd tl ih =>
    obtain ⟨n, dn⟩ := hd
    by_cases h : valueNeq ((d.lookup n).getD Value.none)
        ((d2.lookup n).getD Value.none) = true
    · apply iff_of_false
      · simp [eqLoop, h]
      · intro hall
        have h2 := hall (n, dn) (List.mem_cons_self _ _)
        rw [h2] at h
        exact Bool.false_ne_true h
    · rw [Bool.not_eq_true] at h
      simp only [eqLoop, h, if_neg Bool.false_ne_true, ih]
      constructor
      · intro hall p hp
        rcases List.mem_cons.mp hp with hp1 | hp2
        · rw [hp1]; exact h
        · exact hall p hp2
      · intro hall p hp
        exact hall p (List.mem_cons_of_mem _ hp)

/-- C4 amended: the claim holds only for same-class comparisons — equality
between instances of the same declared type holds iff every declared
field's committed value compares equal — while comparing against an
instance of a different declared type, or against a value that is not a
record instance at all, returns equal (True, the field loop being
skipped), not not-equal; no case raises. -/
theorem c4_eq_amended (cls cls2 : EClass) (d d2 : Dict) (v : Value)
    (hne : (cls.mro == cls2.mro) = false) :
    eqMethod cls d (PyObj.record cls2 d2) = true ∧
    eqMethod cls d (PyObj.plain v) = true ∧
    (eqMethod cls d (PyObj.record cls d2) = true ↔
      ∀ p ∈ cls.fields,
        valueNeq ((d.lookup p.1).getD Value.none)
          ((d2.lookup p.1).getD Value.none) = false) := by
  refine ⟨?_, rfl, ?_⟩
  · simp [eqMethod, hne]
  · have hself : (cls.mro == cls.mro) = true := beq_self_eq_true cls.mro
    simp only [eqMethod, hself, if_pos rfl]
    exact eqLoop_true_iff cls.fields d d2

/-- C4 amended, witness: instantiating the amended equality theorem at the
concrete `A`/`B` record types. -/
theorem c4_eq_amended_witness :
    eqMethod clsA [("x", Value.int 1)] (PyObj.record clsB [("y", Value.str "q")]) = true :=
  (c4_eq_amended clsA clsB [("x", Value.int 1)] [("y", Value.str "q")]
    (Value.str "z") (by decide)).1

/-- C6: in a multi-field `change` batch where field `A`'s value passes its
per-field checks and field `B`'s fails with a ValidationError, the call
fails with the error message prefixed by `B`'s name and no field of the
batch is applied: the instance `__dict__` returned is exactly the pre-call
one, so `A`'s committed value is unchanged. -/
theorem c6_change_atomic_per_field (mro : List String) (A B : String)
    (dA dB : Defn) (vA vB : Value) (d : Dict)
    (hook : List String → Except String Unit) (m : String)
    (hAB : (A == B) = false)
    (hA : fieldCheck dA vA = Except.ok ())
    (hB : fieldCheck dB vB = Except.error (PyError.validation m)) :
    change ⟨mro, [(A, dA), (B, dB)]⟩ hook d [(A, vA), (B, vB)] =
      (d, Option.some (PyError.validation (B ++ " " ++ m))) := by
  have hBA : (B == A) = false := by
    rw [beq_eq_false_iff_ne] at hAB ⊢
    exact fun h => hAB h.symm
  simp [change, validateBatch, List.lookup, hBA, hA, hB]

/-- C6 witness: a `Person` with `age = 1, name = "Bob"`; the batch
`change(age=25, name="abcdef")` has a valid age and an over-long name, and
leaves both committed values untouched while raising the name-prefixed
ValidationError. -/
theorem c6_change_atomic_witness :
    change personCls noopCheck
        [("age", Value.int 1), ("name", Value.str "Bob")]
        [("age", Value.int 25), ("name", Value.str "abcdef")] =
      ([("age", Value.int 1), ("name", Value.str "Bob")],
        Option.some (PyError.validation
          "name was set to a string of length 6 but cannot be longer than 5")) :=
  c6_change_atomic_per_field ["Person"] "age" "name"
    (Defn.intD false dnone true) (Defn.strD false dnone (Option.some 5))
    (Value.int 25) (Value.str "abcdef")
    [("age", Value.int 1), ("name", Value.str "Bob")] noopCheck
    "was set to a string of length 6 but cannot be longer than 5"
    rfl rfl rfl

/-- C7: `from_json` on text the JSON parser rejects raises
`ValidationError("Invalid JSON")`, and `from_json` on text that parses to
a bare JSON string raises a ValidationError naming the kind (`str`) it
cannot create from; in both cases the result is exactly a ValidationError,
never another exception kind. -/
theorem c7_from_json_malformed (cls : EClass)
    (hook : List String → Except String Unit) (f : Nat → Value × Nat)
    (dec64 : String → Option (List Nat)) (parse : String → Except Unit Value)
    (t1 t2 : String) (s1 s2 : Nat) (sv : String)
    (h1 : parse t1 = Except.error ())
    (h2 : parse t2 = Except.ok (Value.str sv)) :
    from_json cls hook f dec64 parse t1 s1 =
      (Except.error (PyError.validation "Invalid JSON"), s1) ∧
    from_json cls hook f dec64 parse t2 s2 =
      (Except.error (PyError.validation "Cannot create Encodium object from str"), s2) := by
  constructor
  · simp [from_json, h1]
  · simp [from_json, h2, from_obj, pyClassName]

/-- C7 witness: under a parser that rejects "not json at all" and parses
everything else to the bare string "a bare string", both malformed-input
shapes produce ValidationError. -/
theorem c7_from_json_malformed_witness :
    from_json clsA noopCheck f0 dec0 parseW "not json at all" 0 =
      (Except.error (PyError.validation "Invalid JSON"), 0) ∧
    from_json clsA noopCheck f0 dec0 parseW "\"a bare string\"" 0 =
      (Except.error (PyError.validation "Cannot create Encodium object from str"), 0) :=
  c7_from_json_malformed clsA noopCheck f0 dec0 parseW
    "not json at all" "\"a bare string\"" 0 0 "a bare string" rfl rfl

/-- C8: constructing a record whose field has a callable default, without
supplying that field, invokes the callable exactly once — the construction
result holds the value the callable produced and the threaded state has
advanced by exactly that one invocation. -/
theorem c8_callable_default_once (f : Nat → Value × Nat) (s : Nat) (k : Int)
    (h : (f s).1 = Value.int k) :
    init counterCls noopCheck f [] s =
      (([("integer", Value.int k)], Option.none), (f s).2) := by
  simp [init, fillDefaults, counterCls, Defn.defaultOf, h, change,
    validateBatch, fieldCheck, Defn.check_type, baseCheckType, valueClass,
    issubclass, Defn.check_value, Defn.encodiumType, mkBackup, commitAll,
    dictSet, noopCheck, List.lookup]

/-- C8 witness: with the sequential-counter default of the repository's
test, three successive constructions invoke the callable exactly three
times and yield the distinct values 0, 1, 2. -/
theorem c8_callable_default_once_witness :
    init counterCls noopCheck counterF [] 0 =
      (([("integer", Value.int 0)], Option.none), 1) ∧
    init counterCls noopCheck counterF [] 1 =
      (([("integer", Value.int 1)], Option.none), 2) ∧
    init counterCls noopCheck counterF [] 2 =
      (([("integer", Value.int 2)], Option.none), 3) :=
  ⟨c8_callable_default_once counterF 0 0 rfl,
   c8_callable_default_once counterF 1 1 rfl,
   c8_callable_default_once counterF 2 2 rfl⟩

/-- C9: for a subclass declared after its parent (neither with its own
nested Definition class), the metaclass computes the subclass's
`_encodium_fields` from the subclass's own body only — the parent's fields
are absent — and supplying a name outside that body (such as a
parent-declared field) to `change` takes the unknown-field warning path:
the value is never validated and never committed. -/
theorem c9_subclass_own_fields (P C : String)
    (pbody cbody : List (String × Defn)) (p : String) (v : Value) (d : Dict)
    (hCP : (C == P) = false)
    (hp : cbody.lookup p = Option.none) :
    ((processDecls [⟨P, [], pbody, OwnDefn.inherited⟩,
        ⟨C, [P], cbody, OwnDefn.inherited⟩] Option.none).2.lookup C =
      Option.some ⟨[C, P], cbody⟩) ∧
    change ⟨[C, P], cbody⟩ noopCheck d [(p, v)] = (d, Option.none) := by
  constructor
  · simp [processDecls, List.lookup, hCP]
  · simp [change, validateBatch, hp, mkBackup, commitAll, noopCheck]

/-- C9 witness: `class Dad(Person)` declares only `puns`; its computed
field table is exactly its own body and `change(age=60)` is a warning-only
no-op on a `Dad` instance. -/
theorem c9_subclass_own_fields_witness :
    ((processDecls [⟨"Person", [], personBody, OwnDefn.inherited⟩,
        ⟨"Dad", ["Person"], dadBody, OwnDefn.inherited⟩] Option.none).2.lookup "Dad" =
      Option.some ⟨["Dad", "Person"], dadBody⟩) ∧
    change ⟨["Dad", "Person"], dadBody⟩ noopCheck
        [("puns", Value.list [])] [("age", Value.int 60)] =
      ([("puns", Value.list [])], Option.none) :=
  c9_subclass_own_fields "Person" "Dad" personBody dadBody "age"
    (Value.int 60) [("puns", Value.list [])] rfl rfl

/-- C10: a Python boolean passes an Integer field's type check (`bool` is a
builtin subclass of `int`), so constructing with True or False for an
integer field succeeds and commits the boolean, and under
`non_negative=True` both booleans pass the value check (they compare as 1
and 0, never negative). -/
theorem c10_bool_passes_integer_field (b : Bool) (f : Nat → Value × Nat)
    (s : Nat) :
    init boolIntCls noopCheck f [("n", Value.bool b)] s =
      (([("n", Value.bool b)], Option.none), s) := by
  cases b <;> rfl

end Encodium
